import Mathlib

/-!
# Verification of the sentiment-analyzer client core

A shallow embedding of the result pipeline and chart lifecycle controller of
`src/sentiment-analyzer/src/routes/+page.svelte`, together with theorems
settling the specification's claims about it.

The embedding models:
* the reactive page state (`PageState`): `reviewsText`, `result`, `error`,
  `isLoading`, `selectedChartType`, `selectedAspect`, plus whether the canvas
  is attached;
* the `analyze` submission handler as a function from the pre-submission state
  and a `FetchOutcome` (the behaviour of the external service call) to the
  sequence of intermediate states it passes through, together with the list of
  network requests it issues;
* the inline keyword-normalization step as `normalizeKeywords`;
* `renderChart` as a function from the current chart instance and page state
  to the new chart instance and the list of destroy/create events it performs.

JavaScript `Record<string, T>` objects are modelled as association lists
(`List (String × T)`), preserving insertion order as `Object.keys` does for
string keys.  JavaScript `undefined`-or-string fields are `Option String`;
the falsiness test `!x` on such a field is true for both `undefined` and the
empty string, captured by `strFalsy`.
-/

/-- Chart kinds, from `selectedChartType`'s type
`'pie' | 'bar' | 'doughnut' | 'polarArea'`. -/
inductive ChartType where
  | pie
  | bar
  | doughnut
  | polarArea
deriving DecidableEq, Repr

/-- The string interpolation of a chart type, as in the title template. -/
def ChartType.name : ChartType → String
  | .pie => "pie"
  | .bar => "bar"
  | .doughnut => "doughnut"
  | .polarArea => "polarArea"

/-- `interface SentimentData`: per-aspect sentiment mapping, insight text and
keywords.  The `Record<string, number>` sentiment mapping is an ordered
association list; percentages are modelled as integers. -/
structure SentimentData where
  sentiment : List (String × Int)
  insight : String
  common_keywords : List String
deriving DecidableEq, Repr

/-- `interface AnalysisResult`: the insights record, keyed by aspect name. -/
structure AnalysisResult where
  insights : List (String × SentimentData)
deriving DecidableEq, Repr

/-- The reactive state of the page component (chart instance kept separate,
since it is not reactive state). -/
structure PageState where
  reviewsText : String
  result : Option AnalysisResult
  error : String
  isLoading : Bool
  selectedChartType : ChartType
  selectedAspect : Option String
  canvasAttached : Bool
deriving DecidableEq, Repr

/-- JavaScript falsiness of a `string | undefined` value: `undefined` and the
empty string are falsy. -/
def strFalsy : Option String → Bool
  | none => true
  | some s => s == ""

/-- A character kept by the regex replace `[^a-zA-Z]` → `''`: an ASCII
letter. -/
def isAsciiLetter (c : Char) : Bool :=
  ('A' ≤ c && c ≤ 'Z') || ('a' ≤ c && c ≤ 'z')

/-- `keyword.replace(/[^a-zA-Z]/g, '')`: remove every character that is not
an ASCII letter. -/
def stripNonAlpha (s : String) : String :=
  String.mk (s.data.filter isAsciiLetter)

/-- The keyword-normalization step applied to one aspect's keyword list
(lines 86–88): map `stripNonAlpha` over the list, then drop the keywords
that became empty (`.filter(keyword => keyword.length > 0)`). -/
def normalizeKeywords (keywords : List String) : List String :=
  (keywords.map stripNonAlpha).filter (fun keyword => keyword.length > 0)

/-- Keyword normalization of one aspect's data: only `common_keywords` is
reassigned. -/
def normalizeSentimentData (d : SentimentData) : SentimentData :=
  { d with common_keywords := normalizeKeywords d.common_keywords }

/-- The post-response normalization loop (lines 84–90): normalize every
aspect's keyword list in place. -/
def normalizeResult (r : AnalysisResult) : AnalysisResult :=
  { insights := r.insights.map (fun p => (p.1, normalizeSentimentData p.2)) }

/-- `text.split('\n')` on the underlying character sequence: split into the
(possibly empty) segments between newline characters. -/
def splitOnNewline : List Char → List (List Char)
  | [] => [[]]
  | c :: rest =>
      let segs := splitOnNewline rest
      if c = '\n' then [] :: segs
      else
        match segs with
        | [] => [[c]]
        | seg :: more => (c :: seg) :: more

/-- `r.trim()`: drop leading and trailing whitespace characters. -/
def trimChars (cs : List Char) : List Char :=
  ((cs.dropWhile Char.isWhitespace).reverse.dropWhile Char.isWhitespace).reverse

/-- The review batch derived from the textarea (lines 57–60):
split on line breaks, trim each line, drop blank lines
(`.filter((r) => r)` keeps exactly the non-empty strings). -/
def parseReviews (text : String) : List String :=
  ((splitOnNewline text.data).map (fun line => String.mk (trimChars line))).filter
    (fun r => r ≠ "")

/-- The behaviour of the awaited `fetch` call, as seen by `analyze`:
* `success body` — an OK response whose JSON body parsed to `body`;
* `httpError errorField` — a non-OK response whose JSON body parsed, with
  `errorField` the body's `"error"` string field (`none` when absent);
* `transportFail msg` — the fetch or a `response.json()` call threw; `msg`
  is the exception's message. -/
inductive FetchOutcome where
  | success (body : AnalysisResult)
  | httpError (errorField : Option String)
  | transportFail (msg : String)
deriving DecidableEq, Repr

/-- The `analyze` handler (lines 52–97), run against a fixed fetch outcome.
Returns the sequence of states the component passes through (one entry per
mutation of reactive state) and the list of request bodies sent.

Mutation order follows the source: clear `error`, clear `result`, set
`isLoading`; on empty batch set the validation error and clear `isLoading`
without fetching; otherwise fetch, then on a non-OK response store the parsed
error field or the generic fallback (JS `||`, so an empty parsed field also
falls back); on an OK response store the body, normalize it in place, and
set `selectedAspect` to the first insights key; on a thrown error store the
exception message or its generic fallback; `finally` clears `isLoading`. -/
def analyzeRun (s : PageState) (outcome : FetchOutcome) :
    List PageState × List (List String) :=
  let s1 : PageState := { s with error := "", result := none, isLoading := true }
  let reviews := parseReviews s.reviewsText
  if reviews = [] then
    let s2 := { s1 with error := "Please enter at least one review.", isLoading := false }
    ([s1, s2], [])
  else
    match outcome with
    | .httpError errorField =>
        let msg := match errorField with
          | some m => if m = "" then "Something went wrong." else m
          | none => "Something went wrong."
        let s2 := { s1 with error := msg }
        let s3 := { s2 with isLoading := false }
        ([s1, s2, s3], [reviews])
    | .success body =>
        let s2 := { s1 with result := some body }
        let s3 := { s2 with result := some (normalizeResult body) }
        let s4 := { s3 with
          selectedAspect := match (normalizeResult body).insights with
            | [] => none
            | (k, _) :: _ => some k }
        let s5 := { s4 with isLoading := false }
        ([s1, s2, s3, s4, s5], [reviews])
    | .transportFail msg =>
        let s2 := { s1 with error := if msg = "" then "Request failed." else msg }
        let s3 := { s2 with isLoading := false }
        ([s1, s2, s3], [reviews])

/-- The state in which `analyze` leaves the component. -/
def analyzeFinal (s : PageState) (outcome : FetchOutcome) : PageState :=
  (analyzeRun s outcome).1.getLastD s

/-- The lazy repair effect (lines 185–189): when a result is present and
`selectedAspect` is falsy, set it to the first insights key, with `undefined`
substituted when that key is itself falsy (`Object.keys(...)[0] || undefined`). -/
def applyRepairEffect (s : PageState) : PageState :=
  match s.result with
  | some r =>
      if strFalsy s.selectedAspect then
        { s with selectedAspect :=
            match r.insights with
            | [] => none
            | (k, _) :: _ => if k = "" then none else some k }
      else s
  | none => s

/-- The `SelectChartType` transition: the dropdown's `onSelect` handler sets
`selectedChartType` unconditionally. -/
def selectChartType (s : PageState) (t : ChartType) : PageState :=
  { s with selectedChartType := t }

/-- `label.toLowerCase()` on the underlying character sequence. -/
def strToLower (s : String) : String :=
  String.mk (s.data.map Char.toLower)

/-- The fixed sentiment-label → colour table with its case-insensitive
lookup and default (lines 99–104 and 117–121). -/
def sentimentColor (label : String) : String :=
  let l := strToLower label
  if l = "positive" then "#4CAF50"
  else if l = "neutral" then "#FF9800"
  else if l = "negative" then "#F44336"
  else "#2196F3"

/-- The bar-only value axis (lines 156–166): `beginAtZero`, `max: 100`, and
the `%`-suffixed tick label callback. -/
structure YAxisConfig where
  beginAtZero : Bool
  max : Int
  ticksCallback : Int → String

/-- The configuration object handed to the `Chart` constructor
(lines 123–168). -/
structure ChartConfig where
  type : ChartType
  labels : List String
  data : List Int
  backgroundColor : List String
  borderColor : String
  borderWidth : Int
  legendPosition : String
  tooltipLabel : String → Int → String
  titleText : String
  yAxis : Option YAxisConfig

/-- Observable chart lifecycle operations: `chartInstance.destroy()` and
`new Chart(...)`. -/
inductive ChartEvent where
  | destroy
  | create
deriving DecidableEq, Repr

/-- Record lookup `result.insights[selectedAspect]`. -/
def lookupAspect (r : AnalysisResult) (a : String) : Option SentimentData :=
  (r.insights.find? (fun p => p.1 == a)).map Prod.snd

/-- `renderChart` (lines 106–169): given the current chart instance and the
page state, return the new chart instance and the destroy/create events
performed, in order.

Follows the source: return untouched unless a result, an attached canvas and
a truthy `selectedAspect` are all present; read the selected aspect's
sentiment mapping (when the aspect is not a key the source throws there,
before any chart operation, so the instance is unchanged and no event
occurs); destroy the existing instance if there is one; construct the new
chart from the mapping's key order, the colour table, the kind-dependent
legend position and title, and the bar-only y-axis. -/
def renderChart (chart : Option ChartConfig) (s : PageState) :
    Option ChartConfig × List ChartEvent :=
  match s.result, s.selectedAspect with
  | some r, some a =>
      if s.canvasAttached = false ∨ a = "" then (chart, [])
      else
        match lookupAspect r a with
        | none => (chart, [])
        | some d =>
            let labels := d.sentiment.map Prod.fst
            let dataVals := d.sentiment.map Prod.snd
            let backgroundColors := labels.map sentimentColor
            let cfg : ChartConfig :=
              { type := s.selectedChartType
                labels := labels
                data := dataVals
                backgroundColor := backgroundColors
                borderColor := "#fff"
                borderWidth := 2
                legendPosition :=
                  if s.selectedChartType = ChartType.bar then "top" else "right"
                tooltipLabel := fun label raw => label ++ ": " ++ toString raw ++ "%"
                titleText := a ++ " Sentiment (" ++ s.selectedChartType.name ++ ")"
                yAxis :=
                  if s.selectedChartType = ChartType.bar then
                    some { beginAtZero := true, max := 100,
                           ticksCallback := fun v => toString v ++ "%" }
                  else none }
            (some cfg,
             (if chart.isSome then [ChartEvent.destroy] else []) ++ [ChartEvent.create])
  | _, _ => (chart, [])

/-- A sequence of re-render triggers: fold `renderChart` over the successive
dependency snapshots, concatenating the event logs. -/
def runRenders (chart : Option ChartConfig) : List PageState → Option ChartConfig × List ChartEvent
  | [] => (chart, [])
  | s :: rest =>
      let step := renderChart chart s
      let next := runRenders step.1 rest
      (next.1, step.2 ++ next.2)

/-- A chart event log is well formed for a given initial liveness: a chart is
created only while none is live, and destroyed only while one is live.  This
expresses both that a dispose precedes every re-create and that at most one
chart is ever attached. -/
def wellFormedLog : Bool → List ChartEvent → Bool
  | _, [] => true
  | live, ChartEvent.create :: rest => !live && wellFormedLog true rest
  | live, ChartEvent.destroy :: rest => live && wellFormedLog false rest

/-- The component registers no `onDestroy` hook and the chart effect returns
no cleanup function (lines 179–183), so tearing the view down performs no
chart lifecycle operation. -/
def teardownEvents : List ChartEvent := []

/-- The liveness of the (at most one) chart after replaying an event log
from a given initial liveness. -/
def liveAfter : Bool → List ChartEvent → Bool
  | b, [] => b
  | _, ChartEvent.create :: rest => liveAfter true rest
  | _, ChartEvent.destroy :: rest => liveAfter false rest

/-- Concrete per-aspect data used to instantiate the theorems. -/
def exampleData : SentimentData :=
  { sentiment := [("positive", 80), ("negative", 20)]
    insight := "battery praised"
    common_keywords := ["fast", "charge"] }

/-- A concrete two-aspect analysis result. -/
def exampleResult : AnalysisResult :=
  { insights := [("battery", exampleData),
                 ("screen", { sentiment := [("negative", 90)]
                              insight := "screen criticized"
                              common_keywords := ["dim"] })] }

/-- A concrete page state holding a result, an attached canvas and a valid
selected aspect. -/
def exampleReadyState : PageState :=
  { reviewsText := "Great battery life\nScreen is too dim"
    result := some exampleResult
    error := ""
    isLoading := false
    selectedChartType := ChartType.pie
    selectedAspect := some "battery"
    canvasAttached := true }

/-- A concrete pre-submission page state. -/
def exampleIdleState : PageState :=
  { reviewsText := "Great battery life\nScreen is too dim"
    result := none
    error := ""
    isLoading := false
    selectedChartType := ChartType.pie
    selectedAspect := none
    canvasAttached := true }

/-- A concrete live chart instance, as produced by a first render. -/
def exampleChart : ChartConfig :=
  { type := ChartType.pie
    labels := ["positive", "negative"]
    data := [80, 20]
    backgroundColor := ["#4CAF50", "#F44336"]
    borderColor := "#fff"
    borderWidth := 2
    legendPosition := "right"
    tooltipLabel := fun label raw => label ++ ": " ++ toString raw ++ "%"
    titleText := "battery Sentiment (pie)"
    yAxis := none }

/-! ## Helper lemmas -/

lemma stripNonAlpha_idem (s : String) :
    stripNonAlpha (stripNonAlpha s) = stripNonAlpha s := by
  show String.mk (((s.data.filter isAsciiLetter)).filter isAsciiLetter) = _
  rw [List.filter_filter]
  simp only [Bool.and_self]
  rfl

lemma mem_normalizeKeywords {k : String} {ks : List String} :
    k ∈ normalizeKeywords ks ↔ (k.length > 0 ∧ ∃ x ∈ ks, stripNonAlpha x = k) := by
  simp only [normalizeKeywords, List.mem_filter, List.mem_map]
  constructor
  · rintro ⟨⟨x, hx, rfl⟩, hlen⟩
    exact ⟨by simpa using hlen, x, hx, rfl⟩
  · rintro ⟨hlen, x, hx, rfl⟩
    exact ⟨⟨x, hx, rfl⟩, by simpa using hlen⟩

lemma count_map_eq_length_filter (f : String → String) (l : List String) (s : String) :
    (l.map f).count s = (l.filter (fun k => f k = s)).length := by
  induction l with
  | nil => rfl
  | cons a l ih =>
      by_cases h : f a = s <;>
        simp [List.count_cons, List.filter_cons, h, ih]

lemma normalizeKeywords_map_fixed (ks : List String) :
    (normalizeKeywords ks).map stripNonAlpha = normalizeKeywords ks := by
  have h : ∀ x ∈ normalizeKeywords ks, stripNonAlpha x = x := by
    intro x hx
    rcases mem_normalizeKeywords.mp hx with ⟨-, y, -, rfl⟩
    exact stripNonAlpha_idem y
  calc (normalizeKeywords ks).map stripNonAlpha
      = (normalizeKeywords ks).map id := List.map_congr_left h
    _ = normalizeKeywords ks := List.map_id _

/-! ## Claims C6 and C7: the keyword normalizer -/

/-- C6: Keyword normalization maps each input keyword to the string obtained
by removing every character that is not an ASCII letter, discards keywords
that become empty, preserves the relative order of surviving keywords, and
does not deduplicate (the multiplicity of each surviving keyword equals the
number of input keywords mapping to it); in particular, input
`["fast!", "2-day", "", "Good"]` yields output `["fast", "day", "Good"]`. -/
theorem claim_C6_normalizer_characterization :
    normalizeKeywords ["fast!", "2-day", "", "Good"] = ["fast", "day", "Good"] ∧
    (∀ (ks : List String) (k : String), k ∈ normalizeKeywords ks →
      k ≠ "" ∧ ∃ x ∈ ks, stripNonAlpha x = k) ∧
    (∀ ks : List String, (normalizeKeywords ks).Sublist (ks.map stripNonAlpha)) ∧
    (∀ (ks : List String) (s : String), s ≠ "" →
      (normalizeKeywords ks).count s = (ks.filter (fun k => stripNonAlpha k = s)).length) := by
  refine ⟨by decide, ?_, ?_, ?_⟩
  · intro ks k hk
    rcases mem_normalizeKeywords.mp hk with ⟨hlen, x, hx, rfl⟩
    refine ⟨?_, x, hx, rfl⟩
    intro hempty
    rw [hempty] at hlen
    exact absurd hlen (by decide)
  · intro ks
    exact List.filter_sublist _
  · intro ks s hs
    have hlen : s.length > 0 := by
      cases s with
      | mk data =>
          cases data with
          | nil => exact absurd rfl hs
          | cons c cs => simp [String.length]
    unfold normalizeKeywords
    rw [List.count_filter (by simpa using hlen)]
    exact count_map_eq_length_filter stripNonAlpha ks s

/-- A closed instance of C6's quantified conjuncts: `"fast"` survives
normalization of `["fast!", "2-day", "", "Good"]`, is non-empty, arises from
an input keyword, and keeps its multiplicity. -/
theorem claim_C6_witness :
    ("fast" ≠ "" ∧ ∃ x ∈ ["fast!", "2-day", "", "Good"], stripNonAlpha x = "fast") ∧
    (normalizeKeywords ["go!", "go?"]).count "go" =
      (["go!", "go?"].filter (fun k => stripNonAlpha k = "go")).length :=
  ⟨claim_C6_normalizer_characterization.2.1 ["fast!", "2-day", "", "Good"] "fast" (by decide),
   claim_C6_normalizer_characterization.2.2.2 ["go!", "go?"] "go" (by decide)⟩

/-- C7: keyword normalization is idempotent:
`normalize(normalize(x)) = normalize(x)` for every keyword list `x`. -/
theorem claim_C7_normalizer_idempotent (ks : List String) :
    normalizeKeywords (normalizeKeywords ks) = normalizeKeywords ks := by
  show (((normalizeKeywords ks).map stripNonAlpha).filter _) = _
  rw [normalizeKeywords_map_fixed]
  unfold normalizeKeywords
  rw [List.filter_filter]
  simp

/-! ## Claim C1: result/error mutual exclusion -/

/-- C1: at every point during and after a submission handled by `analyze`,
the stored result and the visible error message are never both non-absent:
whenever the error string is non-empty the result is `none`, and whenever a
result is present the error string is empty. -/
theorem claim_C1_result_error_exclusive
    (s : PageState) (outcome : FetchOutcome) (t : PageState)
    (ht : t ∈ (analyzeRun s outcome).1) :
    (t.error ≠ "" → t.result = none) ∧ (t.result.isSome = true → t.error = "") := by
  simp only [analyzeRun] at ht
  by_cases hr : parseReviews s.reviewsText = []
  · rw [if_pos hr] at ht
    simp only [List.mem_cons, List.not_mem_nil, or_false] at ht
    rcases ht with rfl | rfl <;> simp
  · rw [if_neg hr] at ht
    cases outcome with
    | success body =>
        simp only [List.mem_cons, List.not_mem_nil, or_false] at ht
        rcases ht with rfl | rfl | rfl | rfl | rfl <;> simp
    | httpError ef =>
        simp only [List.mem_cons, List.not_mem_nil, or_false] at ht
        rcases ht with rfl | rfl | rfl <;> simp
    | transportFail m =>
        simp only [List.mem_cons, List.not_mem_nil, or_false] at ht
        rcases ht with rfl | rfl | rfl <;> simp

/-- A closed instance of C1 at the final state of a successful concrete
submission. -/
theorem claim_C1_witness :
    ((analyzeFinal exampleIdleState (FetchOutcome.success exampleResult)).error ≠ "" →
      (analyzeFinal exampleIdleState (FetchOutcome.success exampleResult)).result = none) ∧
    ((analyzeFinal exampleIdleState (FetchOutcome.success exampleResult)).result.isSome = true →
      (analyzeFinal exampleIdleState (FetchOutcome.success exampleResult)).error = "") :=
  claim_C1_result_error_exclusive exampleIdleState (FetchOutcome.success exampleResult)
    (analyzeFinal exampleIdleState (FetchOutcome.success exampleResult)) (by decide)

/-! ## Claim C4: empty submissions are rejected locally -/

/-- C4: if no non-blank line survives splitting the review text on line
breaks and trimming, `analyze` issues no network request, reports the inline
validation error as the visible error message, and clears the busy flag. -/
theorem claim_C4_empty_batch_no_request
    (s : PageState) (outcome : FetchOutcome)
    (h : parseReviews s.reviewsText = []) :
    (analyzeRun s outcome).2 = [] ∧
    (analyzeFinal s outcome).error = "Please enter at least one review." ∧
    (analyzeFinal s outcome).isLoading = false := by
  refine ⟨?_, ?_, ?_⟩ <;>
    simp [analyzeRun, analyzeFinal, h, List.getLastD_cons]

/-- A closed instance of C4 on a whitespace-only review text. -/
theorem claim_C4_witness :
    (analyzeRun { exampleIdleState with reviewsText := "  \n\t " }
        (FetchOutcome.success exampleResult)).2 = [] ∧
    (analyzeFinal { exampleIdleState with reviewsText := "  \n\t " }
        (FetchOutcome.success exampleResult)).error = "Please enter at least one review." ∧
    (analyzeFinal { exampleIdleState with reviewsText := "  \n\t " }
        (FetchOutcome.success exampleResult)).isLoading = false :=
  claim_C4_empty_batch_no_request _ _ (by decide)

/-! ## Claim C8: non-success responses -/

/-- C8: when the service returns a non-success HTTP response, the message
parsed from the body's `error` field is stored verbatim as the visible error
(an absent — or, by JavaScript falsiness, empty — field falls back to the
generic message), the result remains absent, and no chart render occurs. -/
theorem claim_C8_service_rejected
    (s : PageState) (ef : Option String)
    (h : parseReviews s.reviewsText ≠ []) :
    (∀ m, ef = some m → m ≠ "" →
      (analyzeFinal s (FetchOutcome.httpError ef)).error = m) ∧
    ((ef = none ∨ ef = some "") →
      (analyzeFinal s (FetchOutcome.httpError ef)).error = "Something went wrong.") ∧
    (analyzeFinal s (FetchOutcome.httpError ef)).result = none ∧
    (∀ chart, renderChart chart (analyzeFinal s (FetchOutcome.httpError ef)) = (chart, [])) := by
  refine ⟨?_, ?_, ?_, ?_⟩
  · rintro m rfl hm
    simp [analyzeFinal, analyzeRun, h, hm, List.getLastD_cons]
  · rintro (rfl | rfl) <;> simp [analyzeFinal, analyzeRun, h, List.getLastD_cons]
  · simp [analyzeFinal, analyzeRun, h, List.getLastD_cons]
  · intro chart
    simp [analyzeFinal, analyzeRun, renderChart, h, List.getLastD_cons]

/-- A closed instance of C8: HTTP 500 with body error field
`"model unavailable"` stores that message verbatim, keeps the result absent,
and triggers no chart operation. -/
theorem claim_C8_witness :
    (analyzeFinal exampleIdleState (FetchOutcome.httpError (some "model unavailable"))).error =
      "model unavailable" ∧
    (analyzeFinal exampleIdleState (FetchOutcome.httpError (some "model unavailable"))).result =
      none ∧
    renderChart none (analyzeFinal exampleIdleState
      (FetchOutcome.httpError (some "model unavailable"))) = (none, []) :=
  ⟨(claim_C8_service_rejected exampleIdleState _ (by decide)).1 "model unavailable" rfl
      (by decide),
   (claim_C8_service_rejected exampleIdleState _ (by decide)).2.2.1,
   (claim_C8_service_rejected exampleIdleState _ (by decide)).2.2.2 none⟩

/-! ## Claims C2 and C10: the stored result and the selected aspect -/

lemma normalizeResult_keys (r : AnalysisResult) :
    (normalizeResult r).insights.map Prod.fst = r.insights.map Prod.fst := by
  obtain ⟨ins⟩ := r
  induction ins with
  | nil => rfl
  | cons p l ih => simp only [normalizeResult, List.map_cons, List.map_map] at ih ⊢; simp [ih]

lemma normalizeResult_sentiments (r : AnalysisResult) :
    (normalizeResult r).insights.map (fun p => p.2.sentiment) =
      r.insights.map (fun p => p.2.sentiment) := by
  obtain ⟨ins⟩ := r
  induction ins with
  | nil => rfl
  | cons p l ih => simp only [normalizeResult, List.map_cons, List.map_map] at ih ⊢; simp [ih, normalizeSentimentData]

lemma normalizeResult_insight_texts (r : AnalysisResult) :
    (normalizeResult r).insights.map (fun p => p.2.insight) =
      r.insights.map (fun p => p.2.insight) := by
  obtain ⟨ins⟩ := r
  induction ins with
  | nil => rfl
  | cons p l ih => simp only [normalizeResult, List.map_cons, List.map_map] at ih ⊢; simp [ih, normalizeSentimentData]

/-- C2 fails as stated: a successful service response whose insights mapping
is empty (a well-typed `AnalysisResult`) leaves `selectedAspect` absent even
after the lazy repair effect, so it is not a key of the present result's
insights.  (Likewise, a first aspect named `""` is falsy in JavaScript and is
replaced by `undefined` by the repair effect.) -/
theorem claim_C2_counterexample :
    parseReviews exampleIdleState.reviewsText ≠ [] ∧
    (applyRepairEffect (analyzeFinal exampleIdleState
        (FetchOutcome.success { insights := [] }))).result =
      some (normalizeResult { insights := [] }) ∧
    (applyRepairEffect (analyzeFinal exampleIdleState
        (FetchOutcome.success { insights := [] }))).selectedAspect = none := by
  refine ⟨by decide, by decide, by decide⟩

/-- C2 amended: for every non-empty review batch whose submission receives a
successful service response with at least one aspect whose first aspect name
is not the empty string, `selectedAspect` immediately after the resulting
update (including the lazy repair effect) is a valid key of the new result's
insights mapping — namely its first key. -/
theorem claim_C2_selected_aspect_valid
    (s : PageState) (body : AnalysisResult) (k : String) (d : SentimentData)
    (rest : List (String × SentimentData))
    (hr : parseReviews s.reviewsText ≠ [])
    (hb : body.insights = (k, d) :: rest)
    (hk : k ≠ "") :
    (applyRepairEffect (analyzeFinal s (FetchOutcome.success body))).selectedAspect =
      some k ∧
    (applyRepairEffect (analyzeFinal s (FetchOutcome.success body))).result =
      some (normalizeResult body) ∧
    k ∈ (normalizeResult body).insights.map Prod.fst := by
  have hfin : analyzeFinal s (FetchOutcome.success body) =
      { s with result := some (normalizeResult body), error := "",
               selectedAspect := some k, isLoading := false } := by
    simp only [analyzeFinal, analyzeRun]
    rw [if_neg hr]
    simp [normalizeResult, hb, List.getLastD_cons]
  rw [hfin]
  refine ⟨?_, ?_, ?_⟩
  · simp [applyRepairEffect, strFalsy, hk]
  · simp [applyRepairEffect, strFalsy, hk]
  · rw [normalizeResult_keys, hb]
    exact List.mem_cons_self k _

/-- A closed instance of C2 (amended): on the two-aspect example response,
`selectedAspect` ends up `"battery"`, the first key of the stored result. -/
theorem claim_C2_witness :
    (applyRepairEffect (analyzeFinal exampleIdleState
        (FetchOutcome.success exampleResult))).selectedAspect = some "battery" ∧
    (applyRepairEffect (analyzeFinal exampleIdleState
        (FetchOutcome.success exampleResult))).result =
      some (normalizeResult exampleResult) ∧
    "battery" ∈ (normalizeResult exampleResult).insights.map Prod.fst :=
  claim_C2_selected_aspect_valid exampleIdleState exampleResult "battery" exampleData
    [("screen", { sentiment := [("negative", 90)]
                  insight := "screen criticized"
                  common_keywords := ["dim"] })]
    (by decide) rfl (by decide)

/-- C10: a successful submission stores exactly the normalized response, and
the normalization step changes only the `common_keywords` fields: the aspect
names, their relative order, every sentiment mapping and every insight text
are exactly as received from the service. -/
theorem claim_C10_normalization_frame
    (s : PageState) (body : AnalysisResult)
    (hr : parseReviews s.reviewsText ≠ []) :
    (analyzeFinal s (FetchOutcome.success body)).result = some (normalizeResult body) ∧
    (normalizeResult body).insights.map Prod.fst = body.insights.map Prod.fst ∧
    (normalizeResult body).insights.map (fun p => p.2.sentiment) =
      body.insights.map (fun p => p.2.sentiment) ∧
    (normalizeResult body).insights.map (fun p => p.2.insight) =
      body.insights.map (fun p => p.2.insight) := by
  refine ⟨?_, normalizeResult_keys body, normalizeResult_sentiments body,
    normalizeResult_insight_texts body⟩
  simp only [analyzeFinal, analyzeRun]
  rw [if_neg hr]
  simp [List.getLastD_cons]

/-- A closed instance of C10 on the two-aspect example response. -/
theorem claim_C10_witness :
    (analyzeFinal exampleIdleState (FetchOutcome.success exampleResult)).result =
      some (normalizeResult exampleResult) ∧
    (normalizeResult exampleResult).insights.map Prod.fst =
      exampleResult.insights.map Prod.fst ∧
    (normalizeResult exampleResult).insights.map (fun p => p.2.sentiment) =
      exampleResult.insights.map (fun p => p.2.sentiment) ∧
    (normalizeResult exampleResult).insights.map (fun p => p.2.insight) =
      exampleResult.insights.map (fun p => p.2.insight) :=
  claim_C10_normalization_frame exampleIdleState exampleResult (by decide)

/-! ## Claims C3, C5 and C9: the chart lifecycle controller -/

lemma renderChart_shape (chart : Option ChartConfig) (s : PageState) :
    ((renderChart chart s).1 = chart ∧ (renderChart chart s).2 = []) ∨
    ((renderChart chart s).1.isSome = true ∧
      (renderChart chart s).2 =
        (if chart.isSome then [ChartEvent.destroy] else []) ++ [ChartEvent.create]) := by
  obtain ⟨rt, res, er, il, sct, sa, cv⟩ := s
  cases res with
  | none => exact Or.inl ⟨rfl, rfl⟩
  | some r =>
      cases sa with
      | none => exact Or.inl ⟨rfl, rfl⟩
      | some a =>
          simp only [renderChart]
          by_cases hg : cv = false ∨ a = ""
          · rw [if_pos hg]
            exact Or.inl ⟨rfl, rfl⟩
          · rw [if_neg hg]
            cases hd : lookupAspect r a with
            | none => exact Or.inl ⟨rfl, rfl⟩
            | some d => right; cases chart <;> simp

lemma wellFormedLog_renderChart (chart : Option ChartConfig) (s : PageState) :
    wellFormedLog chart.isSome (renderChart chart s).2 = true := by
  rcases renderChart_shape chart s with ⟨-, h2⟩ | ⟨-, h2⟩
  · rw [h2]; rfl
  · rw [h2]; cases chart <;> rfl

lemma liveAfter_renderChart (chart : Option ChartConfig) (s : PageState) :
    liveAfter chart.isSome (renderChart chart s).2 = (renderChart chart s).1.isSome := by
  rcases renderChart_shape chart s with ⟨h1, h2⟩ | ⟨h1, h2⟩
  · rw [h1, h2]; rfl
  · rw [h1, h2]; cases chart <;> rfl

lemma liveAfter_append (l1 l2 : List ChartEvent) (b : Bool) :
    liveAfter b (l1 ++ l2) = liveAfter (liveAfter b l1) l2 := by
  induction l1 generalizing b with
  | nil => rfl
  | cons e l ih => cases e <;> simp [liveAfter, ih]

lemma wellFormedLog_append (l1 l2 : List ChartEvent) (b : Bool) :
    wellFormedLog b (l1 ++ l2) =
      (wellFormedLog b l1 && wellFormedLog (liveAfter b l1) l2) := by
  induction l1 generalizing b with
  | nil => rfl
  | cons e l ih => cases e <;> simp [wellFormedLog, liveAfter, ih, Bool.and_assoc]

lemma runRenders_live (chart : Option ChartConfig) (ss : List PageState) :
    liveAfter chart.isSome (runRenders chart ss).2 = (runRenders chart ss).1.isSome := by
  induction ss generalizing chart with
  | nil => rfl
  | cons s rest ih =>
      simp only [runRenders, liveAfter_append, liveAfter_renderChart]
      exact ih _

/-- C3: whenever `renderChart` creates a chart while one already exists, the
destroy of the old instance immediately precedes the create, within the same
synchronous call; consequently every event log produced by a sequence of
renders is well formed — a chart is only ever created while none is live and
only ever destroyed while one is live, so at most one chart is attached to
the canvas at any time. -/
theorem claim_C3_single_chart_instance :
    (∀ (s : PageState) (c : ChartConfig),
        (renderChart (some c) s).2 = [] ∨
        (renderChart (some c) s).2 = [ChartEvent.destroy, ChartEvent.create]) ∧
    (∀ (chart : Option ChartConfig) (ss : List PageState),
        wellFormedLog chart.isSome (runRenders chart ss).2 = true) := by
  constructor
  · intro s c
    rcases renderChart_shape (some c) s with ⟨-, h2⟩ | ⟨-, h2⟩
    · exact Or.inl h2
    · right; rw [h2]; rfl
  · intro chart ss
    induction ss generalizing chart with
    | nil => rfl
    | cons s rest ih =>
        simp only [runRenders, wellFormedLog_append, wellFormedLog_renderChart,
          liveAfter_renderChart, Bool.true_and]
        exact ih _

/-- C9 fails as stated: the component registers no teardown cleanup
(`teardownEvents = []`), so after a concrete render creates a chart and the
view is torn down, that chart instance is still live — it was neither
replaced nor destroyed at teardown. -/
theorem claim_C9_counterexample :
    (runRenders none [exampleReadyState]).2 = [ChartEvent.create] ∧
    teardownEvents = [] ∧
    liveAfter false ((runRenders none [exampleReadyState]).2 ++ teardownEvents) = true := by
  refine ⟨by decide, rfl, by decide⟩

/-- C9 amended: every chart instance that is replaced by a newer chart is
destroyed (synchronously, within the replacing render), but the view performs
no cleanup at teardown, so the most recently created chart instance — the one
held as the final `chartInstance` — remains live after the view is torn
down. -/
theorem claim_C9_destroy_only_on_replace :
    (∀ (s : PageState) (c : ChartConfig),
        (renderChart (some c) s).2 ≠ [] →
        (renderChart (some c) s).2 = [ChartEvent.destroy, ChartEvent.create]) ∧
    teardownEvents = [] ∧
    (∀ ss : List PageState,
        liveAfter false ((runRenders none ss).2 ++ teardownEvents) =
          (runRenders none ss).1.isSome) := by
  refine ⟨?_, rfl, ?_⟩
  · intro s c hne
    rcases renderChart_shape (some c) s with ⟨-, h2⟩ | ⟨-, h2⟩
    · exact absurd h2 hne
    · rw [h2]; rfl
  · intro ss
    rw [show teardownEvents = [] from rfl, List.append_nil]
    exact runRenders_live none ss

/-- A closed instance of C9 (amended): re-rendering over a live chart
destroys it and then creates the replacement. -/
theorem claim_C9_witness :
    (renderChart (some exampleChart) exampleReadyState).2 =
      [ChartEvent.destroy, ChartEvent.create] :=
  claim_C9_destroy_only_on_replace.1 exampleReadyState exampleChart (by decide)

/-- C5: after selecting chart type `t`, the next render constructs the chart
with kind `t`, and attaches the 0–100 value axis with `%`-suffixed tick
labels exactly when `t` is `bar`; every other kind gets no value-axis
configuration. -/
theorem claim_C5_chart_kind_and_bar_axis
    (s : PageState) (t : ChartType) (r : AnalysisResult) (a : String)
    (d : SentimentData) (chart : Option ChartConfig)
    (hres : s.result = some r) (hcv : s.canvasAttached = true)
    (hasp : s.selectedAspect = some a) (ha : a ≠ "")
    (hd : lookupAspect r a = some d) :
    ∃ cfg, (renderChart chart (selectChartType s t)).1 = some cfg ∧
      cfg.type = t ∧
      (t = ChartType.bar →
        cfg.yAxis = some { beginAtZero := true, max := 100,
                           ticksCallback := fun v => toString v ++ "%" }) ∧
      (t ≠ ChartType.bar → cfg.yAxis = none) := by
  obtain ⟨rt, res, er, il, sct, sa, cv⟩ := s
  obtain rfl : res = some r := hres
  obtain rfl : sa = some a := hasp
  obtain rfl : cv = true := hcv
  simp only [selectChartType, renderChart]
  rw [if_neg (by simp [ha])]
  rw [hd]
  refine ⟨_, rfl, rfl, ?_, ?_⟩
  · intro h
    subst h
    rfl
  · intro h
    simp only [if_neg h]

/-- A closed instance of C5: selecting the `bar` kind on the example state
yields a bar chart carrying the bounded percentage axis. -/
theorem claim_C5_witness :
    ∃ cfg, (renderChart none (selectChartType exampleReadyState ChartType.bar)).1 =
        some cfg ∧
      cfg.type = ChartType.bar ∧
      (ChartType.bar = ChartType.bar →
        cfg.yAxis = some { beginAtZero := true, max := 100,
                           ticksCallback := fun v => toString v ++ "%" }) ∧
      (ChartType.bar ≠ ChartType.bar → cfg.yAxis = none) :=
  claim_C5_chart_kind_and_bar_axis exampleReadyState ChartType.bar exampleResult
    "battery" exampleData none rfl rfl rfl (by decide) (by decide)
